import Mathlib

/-!
Verification of the sw-trading-types position lifecycle and performance
aggregation core.

Shallow embedding of the behavioral core of the `sw-trading-types` package:

* `src/types/position/lifecycle.ts` — the position lifecycle state machine
  (`PositionLifecycleStatus`, `ALLOWED_TRANSITIONS`, `isValidTransition`,
  `DAILY_SYNC_RULES`);
* `src/types/position/performance.ts` — the performance aggregation engine
  (`processPositionLiquidation`, `getWeekNumber`, `getPeriodStartDate`,
  `getPeriodEndDate`, `calculateInitialStats`, `calculateUpdatedStats`).

JavaScript numbers are modelled as `Rat` (all quantities involved are exact
decimal arithmetic on the inputs; no rounding behavior is claimed), JS `Date`
values as a civil day number (days since 1970-01-01) plus milliseconds within
the day, and the asynchronous Firestore CRUD collaborator as an explicit
state-passing interface returning `Except String`, where `.error` models a
thrown/rejected promise.
-/

namespace SwTrading

/-! ## Lifecycle state machine (`src/types/position/lifecycle.ts`) -/

/-- Model of `PositionLifecycleStatus` — the closed set of 10 lifecycle states. -/
inductive PositionLifecycleStatus
  | entry_order_pending
  | entry_order_failed
  | entry_order_cancelled
  | entry_unconfirmed
  | confirmed
  | exit_order_pending
  | exit_order_failed
  | exit_order_cancelled
  | liquidated
  | expired
deriving DecidableEq, Repr, Fintype

open PositionLifecycleStatus

/-- Model of `ALLOWED_TRANSITIONS` — the transition matrix from the source
(`lifecycle.ts` lines 130–148), mapping each status to the list of statuses
directly reachable from it. -/
def ALLOWED_TRANSITIONS : PositionLifecycleStatus → List PositionLifecycleStatus
  | entry_order_pending => [entry_unconfirmed, entry_order_failed, entry_order_cancelled, expired]
  | entry_order_failed => [entry_order_pending]
  | entry_order_cancelled => [entry_order_pending]
  | entry_unconfirmed => [confirmed, expired]
  | confirmed => [exit_order_pending]
  | exit_order_pending => [liquidated, exit_order_failed, exit_order_cancelled]
  | exit_order_failed => [exit_order_pending, confirmed]
  | exit_order_cancelled => [exit_order_pending, confirmed]
  | liquidated => []
  | expired => [entry_order_pending]

/-- Model of `isValidTransition(from, to)` — membership test in the transition matrix
(`lifecycle.ts` lines 544–549).  The source's `?.`/`?? false` guard against an
unrecognized `from` is vacuous here because the Lean status type is exact. -/
def isValidTransition (f t : PositionLifecycleStatus) : Bool :=
  (ALLOWED_TRANSITIONS f).contains t

/-- The transition table transcribed from the SPEC's §4.1 table (not from the
code): for each `from`, the `allowed to` entries, used to state the refinement
claim C1. -/
def specTransitionTable : PositionLifecycleStatus → List PositionLifecycleStatus
  | entry_order_pending => [entry_unconfirmed, entry_order_failed, entry_order_cancelled, expired]
  | entry_order_failed => [entry_order_pending]
  | entry_order_cancelled => [entry_order_pending]
  | entry_unconfirmed => [confirmed, expired]
  | confirmed => [exit_order_pending]
  | exit_order_pending => [liquidated, exit_order_failed, exit_order_cancelled]
  | exit_order_failed => [exit_order_pending, confirmed]
  | exit_order_cancelled => [exit_order_pending, confirmed]
  | liquidated => []
  | expired => [entry_order_pending]

/-- The observed order status of a pending order (`'pending' | 'completed' |
'failed' | 'cancelled'`). -/
inductive PendingOrderStatus
  | pending
  | completed
  | failed
  | cancelled
deriving DecidableEq, Repr, Fintype

/-- The action field of a `SyncRule` (`'transition' | 'expire' | 'maintain'`). -/
inductive SyncAction
  | transition
  | expire
  | maintain
deriving DecidableEq, Repr, Fintype

/-- Model of `SyncRule` — a reconciliation rule (`lifecycle.ts` lines 273–279).  The
free-form `reason` string is irrelevant to every claim and is carried
verbatim. -/
structure SyncRule where
  pendingOrderStatus : PendingOrderStatus
  currentPositionStatus : PositionLifecycleStatus
  targetPositionStatus : PositionLifecycleStatus
  action : SyncAction
  reason : String
deriving DecidableEq, Repr

open PendingOrderStatus SyncAction in
/-- Model of `DAILY_SYNC_RULES` — the canonical reconciliation rule set
(`lifecycle.ts` lines 306–382).  The Korean `reason` strings are kept as
unmodified literals. -/
def DAILY_SYNC_RULES : List SyncRule := [
  { pendingOrderStatus := completed, currentPositionStatus := entry_order_pending,
    targetPositionStatus := entry_unconfirmed, action := transition,
    reason := "entry order executed, move to unconfirmed" },
  { pendingOrderStatus := failed, currentPositionStatus := entry_order_pending,
    targetPositionStatus := entry_order_failed, action := transition,
    reason := "entry order failed, move to failed" },
  { pendingOrderStatus := cancelled, currentPositionStatus := entry_order_pending,
    targetPositionStatus := entry_order_cancelled, action := transition,
    reason := "entry order cancelled, move to cancelled" },
  { pendingOrderStatus := pending, currentPositionStatus := entry_order_pending,
    targetPositionStatus := expired, action := expire,
    reason := "entry order pending too long, expire" },
  { pendingOrderStatus := completed, currentPositionStatus := entry_unconfirmed,
    targetPositionStatus := expired, action := expire,
    reason := "entry unconfirmed too long, expire" },
  { pendingOrderStatus := completed, currentPositionStatus := exit_order_pending,
    targetPositionStatus := liquidated, action := transition,
    reason := "exit order executed, move to liquidated" },
  { pendingOrderStatus := failed, currentPositionStatus := exit_order_pending,
    targetPositionStatus := exit_order_failed, action := transition,
    reason := "exit order failed, move to failed" },
  { pendingOrderStatus := cancelled, currentPositionStatus := exit_order_pending,
    targetPositionStatus := exit_order_cancelled, action := transition,
    reason := "exit order cancelled, move to cancelled" }
]

/-! ## Civil-calendar model of JavaScript `Date`

The aggregation engine manipulates dates through `getFullYear`, `getMonth`,
`getDate`, `getDay`, `setDate`, `setMonth`, `setHours` and UTC arithmetic.
All of these follow the proleptic Gregorian calendar, which we model with the
standard days-from-civil / civil-from-days conversions.  A `JSDate` is a day
number (days since 1970-01-01) together with the milliseconds elapsed within
that day.  The embedding is timezone-less (equivalently: runs in UTC), which
is consistent because the source only ever feeds local components back into
local or UTC constructors. -/

/-- Days since 1970-01-01 of the civil date `(y, m, d)` with `m ∈ [1,12]`.
`d` may lie outside the month; it contributes linearly, exactly matching
JavaScript's `Date` day-of-month normalization. -/
def daysFromCivil (y m d : Int) : Int :=
  let y' := y - (if m ≤ 2 then 1 else 0)
  let era := Int.fdiv y' 400
  let yoe := y' - era * 400
  let mp := Int.emod (m + 9) 12
  let doy := Int.fdiv (153 * mp + 2) 5 + d - 1
  let doe := yoe * 365 + Int.fdiv yoe 4 - Int.fdiv yoe 100 + doy
  era * 146097 + doe - 719468

/-- Inverse of `daysFromCivil`: the civil date `(y, m, d)` of a day number. -/
def civilFromDays (z : Int) : Int × Int × Int :=
  let z' := z + 719468
  let era := Int.fdiv z' 146097
  let doe := z' - era * 146097
  let yoe := Int.fdiv (doe - Int.fdiv doe 1460 + Int.fdiv doe 36524 - Int.fdiv doe 146096) 365
  let y := yoe + era * 400
  let doy := doe - (365 * yoe + Int.fdiv yoe 4 - Int.fdiv yoe 100)
  let mp := Int.fdiv (5 * doy + 2) 153
  let d := doy - Int.fdiv (153 * mp + 2) 5 + 1
  let m := mp + (if mp < 10 then 3 else -9)
  (y + (if m ≤ 2 then 1 else 0), m, d)

/-- Model of a JavaScript `Date`: civil day number (days since 1970-01-01)
plus milliseconds within the day. -/
structure JSDate where
  day : Int
  ms : Int
deriving DecidableEq, Repr

namespace JSDate

/-- Construct the `Date` at local/UTC midnight of civil `(y, m, d)`. -/
def mk' (y m d : Int) : JSDate := ⟨daysFromCivil y m d, 0⟩

/-- Model of `getFullYear()`. -/
def getFullYear (dt : JSDate) : Int := (civilFromDays dt.day).1

/-- Model of `getMonth()` — 0-based month index, as in JavaScript. -/
def getMonth (dt : JSDate) : Int := (civilFromDays dt.day).2.1 - 1

/-- Model of `getDate()` — 1-based day of month. -/
def getDate (dt : JSDate) : Int := (civilFromDays dt.day).2.2

/-- Model of `getDay()` / `getUTCDay()` — day of week, 0 = Sunday … 6 = Saturday
(1970-01-01 was a Thursday, i.e. 4). -/
def getDay (dt : JSDate) : Int := Int.emod (dt.day + 4) 7

/-- Model of `setDate(n)` — replace the day-of-month by `n`, normalizing overflow and
underflow across month boundaries exactly as JavaScript does. -/
def setDate (dt : JSDate) (n : Int) : JSDate :=
  ⟨daysFromCivil dt.getFullYear (dt.getMonth + 1) n, dt.ms⟩

/-- Model of `setMonth(mo, n)` — replace the 0-based month by `mo` (normalized across
year boundaries) and the day-of-month by `n`. -/
def setMonth (dt : JSDate) (mo n : Int) : JSDate :=
  ⟨daysFromCivil (dt.getFullYear + Int.fdiv mo 12) (Int.emod mo 12 + 1) n, dt.ms⟩

/-- Model of `setHours(h, mi, s, ms)` — replace the time of day. -/
def setHours (dt : JSDate) (h mi s ms : Int) : JSDate :=
  ⟨dt.day, h * 3600000 + mi * 60000 + s * 1000 + ms⟩

end JSDate

/-- Model of `Math.ceil(a / b)` on integers with `b > 0`. -/
def intCeilDiv (a b : Int) : Int := -(Int.fdiv (-a) b)

/-- Model of `getWeekNumber(date)` (`performance.ts` lines 558–564): ISO-8601 week
number — shift the date to the Thursday of its ISO week (Monday-based), then
`ceil(dayOfYear(thursday) / 7)` against that Thursday's calendar year. -/
def getWeekNumber (date : JSDate) : Int :=
  let d := date.day
  let w := Int.emod (d + 4) 7
  let dayNum := if w = 0 then 7 else w
  let thursday := d + 4 - dayNum
  let ty := (civilFromDays thursday).1
  let yearStart := daysFromCivil ty 1 1
  intCeilDiv ((thursday - yearStart) + 1) 7

/-! ## Performance aggregation (`src/types/position/performance.ts`) -/

/-- Model of `PerformancePeriod` — the five aggregation windows. -/
inductive PerformancePeriod
  | daily
  | weekly
  | monthly
  | yearly
  | overall
deriving DecidableEq, Repr, Fintype

/-- The five periods in the fixed processing order of the source. -/
def allPeriods : List PerformancePeriod :=
  [PerformancePeriod.daily, PerformancePeriod.weekly, PerformancePeriod.monthly,
   PerformancePeriod.yearly, PerformancePeriod.overall]

/-- Model of `String(n).padStart(2, '0')`. -/
def padStart2 (s : String) : String := if s.length < 2 then "0" ++ s else s

/-- The `periodKeys` object computed by `processPositionLiquidation`
(`performance.ts` lines 481–493) from the close date: note that every dated
key reuses `closeDate.getFullYear()` — the calendar year — including the
weekly key, whose week number is the ISO-8601 `getWeekNumber`. -/
def periodKeys (closeDate : JSDate) : PerformancePeriod → String :=
  let year := closeDate.getFullYear
  let month := padStart2 (toString (closeDate.getMonth + 1))
  let day := padStart2 (toString closeDate.getDate)
  let weekNumber := getWeekNumber closeDate
  fun p => match p with
  | PerformancePeriod.daily => toString year ++ "-" ++ month ++ "-" ++ day
  | PerformancePeriod.weekly => toString year ++ "-W" ++ padStart2 (toString weekNumber)
  | PerformancePeriod.monthly => toString year ++ "-" ++ month
  | PerformancePeriod.yearly => toString year
  | PerformancePeriod.overall => "overall"

/-- Model of `Timestamp` on the input side: either a JS `Date`, a Firestore-style
`{ seconds, nanoseconds }` pair, or a malformed value (e.g. `null`) whose
`.seconds` access throws at conversion time. -/
inductive TimestampValue
  | jsDate (d : JSDate)
  | firestore (seconds : Int)
  | invalid
deriving DecidableEq, Repr

/-- The close-timestamp conversion at the head of `processPositionLiquidation`
(`performance.ts` lines 477–479): `closeDate instanceof Date ? closeDate :
new Date(closeDate.seconds * 1000)`.  A malformed timestamp throws, which the
embedding models as `.error`. -/
def toCloseDate : TimestampValue → Except String JSDate
  | TimestampValue.jsDate d => Except.ok d
  | TimestampValue.firestore s =>
      Except.ok ⟨Int.fdiv (s * 1000) 86400000, Int.emod (s * 1000) 86400000⟩
  | TimestampValue.invalid =>
      Except.error "Cannot read properties of null - reading seconds"

/-- Model of `PositionLiquidationInfo` (`performance.ts` lines 41–101). -/
structure PositionLiquidationInfo where
  userId : String
  positionId : String
  symbol : String
  name : Option String := none
  openPrice : Rat
  closePrice : Rat
  amount : Rat
  openDate : TimestampValue
  closeDate : TimestampValue
  fee : Option Rat := none
  realizedPL : Rat
  plRatio : Rat
deriving DecidableEq, Repr

/-- Model of `PerformanceStats` (`performance.ts` lines 109–179); `profitLossRatio`
is the one optional field (`undefined` ↦ `none`). -/
structure PerformanceStats where
  totalTrades : Rat
  winCount : Rat
  loseCount : Rat
  winRate : Rat
  totalRealizedPL : Rat
  averagePL : Rat
  averagePLRatio : Rat
  maxProfit : Rat
  maxLoss : Rat
  totalFee : Rat
  totalInvestment : Rat
  totalProfit : Rat
  totalLoss : Rat
  profitLossRatio : Option Rat := none
deriving DecidableEq, Repr

/-- Model of `calculateInitialStats(liquidationInfo)` (`performance.ts` lines
627–647). -/
def calculateInitialStats (liquidationInfo : PositionLiquidationInfo) : PerformanceStats :=
  let isWin := liquidationInfo.realizedPL > 0
  let investment := liquidationInfo.openPrice * liquidationInfo.amount
  { totalTrades := 1
    winCount := if isWin then 1 else 0
    loseCount := if isWin then 0 else 1
    winRate := if isWin then 100 else 0
    totalRealizedPL := liquidationInfo.realizedPL
    averagePL := liquidationInfo.realizedPL
    averagePLRatio := liquidationInfo.plRatio
    maxProfit := if isWin then liquidationInfo.realizedPL else 0
    maxLoss := if isWin then 0 else liquidationInfo.realizedPL
    totalFee := liquidationInfo.fee.getD 0
    totalInvestment := investment
    totalProfit := if isWin then liquidationInfo.realizedPL else 0
    totalLoss := if isWin then 0 else |liquidationInfo.realizedPL|
    profitLossRatio := none }

/-- Model of `calculateUpdatedStats(existingStats, liquidationInfo)` (`performance.ts`
lines 652–694). -/
def calculateUpdatedStats (existingStats : PerformanceStats)
    (liquidationInfo : PositionLiquidationInfo) : PerformanceStats :=
  let isWin := liquidationInfo.realizedPL > 0
  let investment := liquidationInfo.openPrice * liquidationInfo.amount
  let totalTrades := existingStats.totalTrades + 1
  let winCount := existingStats.winCount + (if isWin then 1 else 0)
  let loseCount := existingStats.loseCount + (if isWin then 0 else 1)
  let totalRealizedPL := existingStats.totalRealizedPL + liquidationInfo.realizedPL
  let totalFee := existingStats.totalFee + liquidationInfo.fee.getD 0
  let totalInvestment := existingStats.totalInvestment + investment
  let totalProfit := existingStats.totalProfit + (if isWin then liquidationInfo.realizedPL else 0)
  let totalLoss := existingStats.totalLoss + (if isWin then 0 else |liquidationInfo.realizedPL|)
  let winRate := (winCount / totalTrades) * 100
  let averagePL := totalRealizedPL / totalTrades
  let averagePLRatio :=
    ((existingStats.averagePLRatio * existingStats.totalTrades) + liquidationInfo.plRatio) / totalTrades
  let maxProfit := max existingStats.maxProfit (if isWin then liquidationInfo.realizedPL else 0)
  let maxLoss := min existingStats.maxLoss (if isWin then 0 else liquidationInfo.realizedPL)
  let avgProfit := if winCount > 0 then totalProfit / winCount else 0
  let avgLoss := if loseCount > 0 then totalLoss / loseCount else 0
  let profitLossRatio := if avgLoss ≠ 0 then some (avgProfit / avgLoss) else none
  { totalTrades, winCount, loseCount, winRate, totalRealizedPL, averagePL,
    averagePLRatio, maxProfit, maxLoss, totalFee, totalInvestment, totalProfit,
    totalLoss, profitLossRatio }

/-- The winning liquidation of the spec's worked example (the fields beyond
those fixed by the example are filled with the docstring's sample data). -/
def exampleLiquidation1 : PositionLiquidationInfo :=
  { userId := "user123", positionId := "pos456", symbol := "005930",
    name := some "samsung", openPrice := 70000, closePrice := 75000,
    amount := 10, openDate := TimestampValue.jsDate (JSDate.mk' 2025 1 1),
    closeDate := TimestampValue.jsDate (JSDate.mk' 2025 1 1),
    fee := some 1000, realizedPL := 49000, plRatio := 714/100 }

/-- The losing liquidation merged second in the spec's worked example. -/
def exampleLiquidation2 : PositionLiquidationInfo :=
  { userId := "user123", positionId := "pos789", symbol := "005930",
    name := some "samsung", openPrice := 50000, closePrice := 48000,
    amount := 5, openDate := TimestampValue.jsDate (JSDate.mk' 2025 1 2),
    closeDate := TimestampValue.jsDate (JSDate.mk' 2025 1 2),
    fee := some 500, realizedPL := -10000, plRatio := -2 }

/-- The winning liquidation of the worked example, parametrized by every
field the example leaves open. -/
def workedInfo1 (u p sy : String) (nm : Option String) (cp : Rat)
    (od cd : TimestampValue) : PositionLiquidationInfo :=
  { userId := u, positionId := p, symbol := sy, name := nm,
    openPrice := 70000, closePrice := cp, amount := 10,
    openDate := od, closeDate := cd, fee := some 1000,
    realizedPL := 49000, plRatio := 714/100 }

/-- The losing liquidation of the worked example, parametrized by every
field the example leaves open. -/
def workedInfo2 (u p sy : String) (nm : Option String) (cp : Rat)
    (od cd : TimestampValue) : PositionLiquidationInfo :=
  { userId := u, positionId := p, symbol := sy, name := nm,
    openPrice := 50000, closePrice := cp, amount := 5,
    openDate := od, closeDate := cd, fee := some 500,
    realizedPL := -10000, plRatio := -2 }

/-- The PerformanceStats invariant of the spec: win and lose counts add up to
the trade count, the win rate is the win fraction in percent, and the
aggregator never produces a record with zero trades. -/
def StatsInvariant (s : PerformanceStats) : Prop :=
  s.winCount + s.loseCount = s.totalTrades ∧
  s.winRate = s.winCount / s.totalTrades * 100 ∧
  1 ≤ s.totalTrades

/-- A liquidation whose optional `fee` field is absent. -/
def feelessLiquidation : PositionLiquidationInfo :=
  { exampleLiquidation2 with fee := none }

/-- Model of `getPeriodStartDate(date, period)` (`performance.ts` lines 569–593).
The source `switch` has no `overall` case, so `overall` returns the copy of
`date` unchanged (the caller never uses it for `overall`). -/
def getPeriodStartDate (date : JSDate) (period : PerformancePeriod) : JSDate :=
  match period with
  | PerformancePeriod.daily => date.setHours 0 0 0 0
  | PerformancePeriod.weekly =>
      let day := date.getDay
      let diff := date.getDate - day + (if day = 0 then -6 else 1)
      (date.setDate diff).setHours 0 0 0 0
  | PerformancePeriod.monthly => (date.setDate 1).setHours 0 0 0 0
  | PerformancePeriod.yearly => (date.setMonth 0 1).setHours 0 0 0 0
  | PerformancePeriod.overall => date

/-- Model of `getPeriodEndDate(date, period)` (`performance.ts` lines 598–622). -/
def getPeriodEndDate (date : JSDate) (period : PerformancePeriod) : JSDate :=
  match period with
  | PerformancePeriod.daily => date.setHours 23 59 59 999
  | PerformancePeriod.weekly =>
      let day := date.getDay
      let diff := date.getDate - day + (if day = 0 then 0 else 7)
      (date.setDate diff).setHours 23 59 59 999
  | PerformancePeriod.monthly => (date.setMonth (date.getMonth + 1) 0).setHours 23 59 59 999
  | PerformancePeriod.yearly => (date.setMonth 11 31).setHours 23 59 59 999
  | PerformancePeriod.overall => date

/-- Model of `PerformanceRecord` (`performance.ts` lines 186–221): the persisted
per-period document.  `startDate`/`endDate` are `undefined` for `overall`. -/
structure PerformanceRecord where
  userId : String
  period : PerformancePeriod
  periodKey : String
  startDate : Option JSDate
  endDate : Option JSDate
  stats : PerformanceStats
  liquidatedPositionIds : List String
  createdAt : JSDate
  updatedAt : JSDate
deriving DecidableEq, Repr

/-- The merge payload `processPositionLiquidation` passes to `crud.update`
(`performance.ts` lines 515–519): only `stats`, `liquidatedPositionIds` and
`updatedAt` are written (shallow-merge semantics). -/
structure PerformanceRecordUpdate where
  stats : PerformanceStats
  liquidatedPositionIds : List String
  updatedAt : JSDate
deriving DecidableEq, Repr

/-- Model of `PerformanceCRUD` (`performance.ts` lines 323–347): the injected store
collaborator, modelled over an explicit store state `σ`; a rejected promise is
`.error`.  `get` may also transform the state so that arbitrary (even
stateful) store behaviors are quantified over. -/
structure PerformanceCRUD (σ : Type) where
  get : String → String → σ → Except String (Option PerformanceRecord × σ)
  create : String → String → PerformanceRecord → σ → Except String σ
  update : String → String → PerformanceRecordUpdate → σ → Except String σ

/-- The `collections` override map of `PerformanceManagerConfig`
(`performance.ts` lines 364–370). -/
structure CollectionsConfig where
  daily : Option String := none
  weekly : Option String := none
  monthly : Option String := none
  yearly : Option String := none
  overall : Option String := none

/-- Model of `PerformanceManagerConfig` (`performance.ts` lines 354–377).  The
injectable clock `getCurrentTime` is modelled as the value it returns. -/
structure PerformanceManagerConfig (σ : Type) where
  crud : PerformanceCRUD σ
  collections : CollectionsConfig := {}
  getCurrentTime : JSDate

/-- The `collectionNames` defaulting (`performance.ts` lines 468–474). -/
def collectionNames (c : CollectionsConfig) : PerformancePeriod → String
  | PerformancePeriod.daily => c.daily.getD "daily_performance"
  | PerformancePeriod.weekly => c.weekly.getD "weekly_performance"
  | PerformancePeriod.monthly => c.monthly.getD "monthly_performance"
  | PerformancePeriod.yearly => c.yearly.getD "yearly_performance"
  | PerformancePeriod.overall => c.overall.getD "overall_performance"

/-- Model of `PerformanceProcessResult` (`performance.ts` lines 384–409). -/
structure PerformanceProcessResult where
  success : Bool
  updatedPeriods : List PerformancePeriod
  createdRecords : List String
  updatedRecords : List String
  error : Option String := none
deriving DecidableEq, Repr

/-- The string a `PerformancePeriod` interpolates to in the
`` `${period}:${docId}` `` record tags. -/
def periodName : PerformancePeriod → String
  | PerformancePeriod.daily => "daily"
  | PerformancePeriod.weekly => "weekly"
  | PerformancePeriod.monthly => "monthly"
  | PerformancePeriod.yearly => "yearly"
  | PerformancePeriod.overall => "overall"

/-- The document id `` `${liquidationInfo.userId}_${periodKey}` ``
(`performance.ts` line 501). -/
def docIdFor (info : PositionLiquidationInfo) (closeDate : JSDate)
    (period : PerformancePeriod) : String :=
  info.userId ++ "_" ++ periodKeys closeDate period

/-- One period's read-modify-write cycle: the body of the inner `try` of
`processPositionLiquidation` (`performance.ts` lines 503–541) up to the
result-list pushes.  Returns `created? = true` when a new record was created,
`false` when an existing one was merged; `.error` models any throw inside the
cycle (from `get`, `update` or `create`). -/
def periodCycle {σ : Type} (cfg : PerformanceManagerConfig σ)
    (info : PositionLiquidationInfo) (closeDate : JSDate)
    (period : PerformancePeriod) (s : σ) : Except String (Bool × σ) :=
  let collectionName := collectionNames cfg.collections period
  let docId := docIdFor info closeDate period
  match cfg.crud.get collectionName docId s with
  | Except.error e => Except.error e
  | Except.ok (some existingRecord, s1) =>
      let updatedStats := calculateUpdatedStats existingRecord.stats info
      let updatedPositionIds := existingRecord.liquidatedPositionIds ++ [info.positionId]
      match cfg.crud.update collectionName docId
          { stats := updatedStats, liquidatedPositionIds := updatedPositionIds,
            updatedAt := cfg.getCurrentTime } s1 with
      | Except.error e => Except.error e
      | Except.ok s2 => Except.ok (false, s2)
  | Except.ok (none, s1) =>
      let initialStats := calculateInitialStats info
      let newRecord : PerformanceRecord :=
        { userId := info.userId, period := period,
          periodKey := periodKeys closeDate period,
          startDate := if period = PerformancePeriod.overall then none
            else some (getPeriodStartDate closeDate period),
          endDate := if period = PerformancePeriod.overall then none
            else some (getPeriodEndDate closeDate period),
          stats := initialStats,
          liquidatedPositionIds := [info.positionId],
          createdAt := cfg.getCurrentTime, updatedAt := cfg.getCurrentTime }
      match cfg.crud.create collectionName docId newRecord s1 with
      | Except.error e => Except.error e
      | Except.ok s2 => Except.ok (true, s2)

/-- The result-list pushes on a successful cycle (`performance.ts` lines 521,
538, 541): the record tag goes to `createdRecords` or `updatedRecords` and the
period to `updatedPeriods`. -/
def applyPeriodOutcome (info : PositionLiquidationInfo) (closeDate : JSDate)
    (res : PerformanceProcessResult) (period : PerformancePeriod)
    (created : Bool) : PerformanceProcessResult :=
  let entry := periodName period ++ ":" ++ docIdFor info closeDate period
  let res := if created
    then { res with createdRecords := res.createdRecords ++ [entry] }
    else { res with updatedRecords := res.updatedRecords ++ [entry] }
  { res with updatedPeriods := res.updatedPeriods ++ [period] }

/-- One iteration of the `for (const period of periods)` loop
(`performance.ts` lines 498–546): the per-period `try`/`catch` — a failed
cycle only logs and leaves the accumulated result and state as they were. -/
def processPeriod {σ : Type} (cfg : PerformanceManagerConfig σ)
    (info : PositionLiquidationInfo) (closeDate : JSDate)
    (acc : PerformanceProcessResult × σ) (period : PerformancePeriod) :
    PerformanceProcessResult × σ :=
  match periodCycle cfg info closeDate period acc.2 with
  | Except.error _ => acc
  | Except.ok (created, s') => (applyPeriodOutcome info closeDate acc.1 period created, s')

/-- Model of `processPositionLiquidation(liquidationInfo, config)` (`performance.ts`
lines 453–553).  The outer `try` covers the close-timestamp conversion (the
only fallible statement before the loop); every per-period failure is caught
inside the loop, so the caller always receives a result, never an
exception. -/
def processPositionLiquidation {σ : Type} (info : PositionLiquidationInfo)
    (cfg : PerformanceManagerConfig σ) (s : σ) : PerformanceProcessResult × σ :=
  let result : PerformanceProcessResult :=
    { success := true, updatedPeriods := [], createdRecords := [],
      updatedRecords := [], error := none }
  match toCloseDate info.closeDate with
  | Except.error e => ({ result with success := false, error := some e }, s)
  | Except.ok closeDate =>
      allPeriods.foldl (processPeriod cfg info closeDate) (result, s)

/-! ### Instrumentation

`runTrace` replays exactly the loop of `processPositionLiquidation`, but
records, for each period in order, whether its cycle succeeded (and whether it
created or merged) instead of accumulating the result object.  It exists only
to *state* which periods failed; the lemma `processPeriods_eq_trace` proves it
agrees with the real loop. -/

/-- Replay of the period loop recording each period's cycle outcome:
`none` = the cycle threw, `some true` = created, `some false` = merged. -/
def runTrace {σ : Type} (cfg : PerformanceManagerConfig σ)
    (info : PositionLiquidationInfo) (closeDate : JSDate) :
    List PerformancePeriod → σ → List (PerformancePeriod × Option Bool) × σ
  | [], s => ([], s)
  | p :: ps, s =>
      match periodCycle cfg info closeDate p s with
      | Except.error _ =>
          let (t, s') := runTrace cfg info closeDate ps s
          ((p, none) :: t, s')
      | Except.ok (created, s1) =>
          let (t, s') := runTrace cfg info closeDate ps s1
          ((p, some created) :: t, s')

/-- The fold step of the result accumulation over a trace: a failed cycle
leaves the result alone, a successful one applies the pushes. -/
def accumTrace (info : PositionLiquidationInfo) (closeDate : JSDate)
    (res : PerformanceProcessResult)
    (t : List (PerformancePeriod × Option Bool)) : PerformanceProcessResult :=
  t.foldl (fun r x =>
    match x.2 with
    | none => r
    | some created => applyPeriodOutcome info closeDate r x.1 created) res

/-- The outcome a trace assigns to a period (first entry wins). -/
def traceOutcome (t : List (PerformancePeriod × Option Bool))
    (p : PerformancePeriod) : Option Bool :=
  match t.find? (fun x => x.1 == p) with
  | some x => x.2
  | none => none

/-- The outcome of period `p`'s read-modify-write cycle in the run of
`processPositionLiquidation info cfg` from store state `s`: `none` when the
cycle raised an error (or the close timestamp did not parse), `some true`
when it created the period record, `some false` when it merged into it. -/
def cycleOutcome {σ : Type} (cfg : PerformanceManagerConfig σ)
    (info : PositionLiquidationInfo) (s : σ) (p : PerformancePeriod) : Option Bool :=
  match toCloseDate info.closeDate with
  | Except.error _ => none
  | Except.ok d => traceOutcome (runTrace cfg info d allPeriods s).1 p

/-! ### A concrete list-backed store

An honest in-memory implementation of the CRUD contract, used for the
reprocessing claim and as the concrete witness store: a list of
`(collection, docId, record)` entries; `update` applies the shallow merge of
the three written fields. -/

/-- In-memory store state: `(collection, docId, record)` entries. -/
def Store := List (String × String × PerformanceRecord)

/-- Look a document up in the store. -/
def storeFind (s : Store) (c d : String) : Option PerformanceRecord :=
  match s.find? (fun e => e.1 == c && e.2.1 == d) with
  | some e => some e.2.2
  | none => none

/-- Shallow merge of an update payload into an existing record, as Firestore
`set(..., { merge: true })` does for the three written fields. -/
def applyRecordUpdate (r : PerformanceRecord) (u : PerformanceRecordUpdate) :
    PerformanceRecord :=
  { r with stats := u.stats, liquidatedPositionIds := u.liquidatedPositionIds,
           updatedAt := u.updatedAt }

/-- The honest list-backed CRUD implementation.  `update` of an absent
document fails; the aggregator only updates documents it has just read. -/
def listStoreCrud : PerformanceCRUD Store where
  get := fun c d s => Except.ok (storeFind s c d, s)
  create := fun c d r s => Except.ok ((c, d, r) :: s)
  update := fun c d u s =>
    match storeFind s c d with
    | none => Except.error "No document to update"
    | some _ => Except.ok (s.map (fun e =>
        if e.1 == c && e.2.1 == d then (e.1, e.2.1, applyRecordUpdate e.2.2 u) else e))

/-- Config wired to the honest list store with default collection names and
clock value `now`. -/
def listStoreConfig (now : JSDate) : PerformanceManagerConfig Store :=
  { crud := listStoreCrud, collections := {}, getCurrentTime := now }

/-- A CRUD implementation whose writes fail on exactly the
`weekly_performance` collection (a transient store error), honest everywhere
else — the scenario of the weekly-failure claim. -/
def weeklyFailingCrud : PerformanceCRUD Store where
  get := fun c d s => Except.ok (storeFind s c d, s)
  create := fun c d r s =>
    if c == "weekly_performance" then Except.error "transient store error"
    else listStoreCrud.create c d r s
  update := fun c d u s =>
    if c == "weekly_performance" then Except.error "transient store error"
    else listStoreCrud.update c d u s

/-- Config wired to the weekly-failing store. -/
def weeklyFailingConfig (now : JSDate) : PerformanceManagerConfig Store :=
  { crud := weeklyFailingCrud, collections := {}, getCurrentTime := now }

/-- The worked-example liquidation with a malformed (`null`-like) close
timestamp, whose `.seconds` access throws. -/
def invalidCloseInfo : PositionLiquidationInfo :=
  { exampleLiquidation1 with closeDate := TimestampValue.invalid }

/-! ## Theorems -/

/-- C1: `isValidTransition` agrees exactly with the spec §4.1 transition
table: `isValidTransition from to = true` iff `to` is listed for `from` in
the spec table, and in particular every transition out of `liquidated` is
rejected. -/
theorem isValidTransition_iff_specTable :
    (∀ f t : PositionLifecycleStatus,
      isValidTransition f t = true ↔ t ∈ specTransitionTable f) ∧
    (∀ t : PositionLifecycleStatus, isValidTransition liquidated t = false) := by
  decide

/-- Witness for C1: the spec-table equivalence and the liquidated-rejection
statement instantiated at concrete statuses. -/
theorem isValidTransition_iff_specTable_witness :
    (isValidTransition entry_unconfirmed confirmed = true ↔
      confirmed ∈ specTransitionTable entry_unconfirmed) ∧
    isValidTransition liquidated confirmed = false :=
  ⟨isValidTransition_iff_specTable.1 entry_unconfirmed confirmed,
   isValidTransition_iff_specTable.2 confirmed⟩

/-- C8: every `DAILY_SYNC_RULES` rule with action `transition` names a pair
present in the transition matrix, and no two rules share the same
`(pendingOrderStatus, currentPositionStatus)` key. -/
theorem dailySyncRules_consistent :
    (∀ r ∈ DAILY_SYNC_RULES, r.action = SyncAction.transition →
      isValidTransition r.currentPositionStatus r.targetPositionStatus = true) ∧
    (DAILY_SYNC_RULES.map
      (fun r => (r.pendingOrderStatus, r.currentPositionStatus))).Nodup := by
  decide

/-- Witness for C8: instantiating the rule-validity statement at the first
rule of `DAILY_SYNC_RULES` (completed/entry_order_pending). -/
theorem dailySyncRules_consistent_witness :
    isValidTransition entry_order_pending entry_unconfirmed = true :=
  dailySyncRules_consistent.1
    { pendingOrderStatus := PendingOrderStatus.completed,
      currentPositionStatus := entry_order_pending,
      targetPositionStatus := entry_unconfirmed,
      action := SyncAction.transition,
      reason := "entry order executed, move to unconfirmed" }
    (by decide) rfl

/-- C2 counterexample: for close date 2024-12-31 the weekly period key the
engine computes is `"2024-W01"`, not `"2025-W01"` as the claim (ISO week-based
year) requires. -/
theorem weeklyKey_20241231_not_iso_year :
    periodKeys (JSDate.mk' 2024 12 31) PerformancePeriod.weekly = "2024-W01" ∧
    periodKeys (JSDate.mk' 2024 12 31) PerformancePeriod.weekly ≠ "2025-W01" := by
  constructor <;> decide

/-- C2 (amended): the weekly period key combines the close date's **calendar**
year with the ISO-8601 week number, so 2025-01-01 yields `"2025-W01"` while
2024-12-31 (ISO week 1 of 2025) yields `"2024-W01"`. -/
theorem weeklyKey_calendar_year_iso_week :
    (∀ d : JSDate, periodKeys d PerformancePeriod.weekly =
      toString d.getFullYear ++ "-W" ++ padStart2 (toString (getWeekNumber d))) ∧
    periodKeys (JSDate.mk' 2025 1 1) PerformancePeriod.weekly = "2025-W01" ∧
    periodKeys (JSDate.mk' 2024 12 31) PerformancePeriod.weekly = "2024-W01" := by
  refine ⟨fun d => rfl, by decide, by decide⟩

/-- Witness for C2 (amended): the general weekly-key shape instantiated at
2026-07-15. -/
theorem weeklyKey_calendar_year_iso_week_witness :
    periodKeys (JSDate.mk' 2026 7 15) PerformancePeriod.weekly =
      toString (JSDate.mk' 2026 7 15).getFullYear ++ "-W" ++
        padStart2 (toString (getWeekNumber (JSDate.mk' 2026 7 15))) :=
  weeklyKey_calendar_year_iso_week.1 (JSDate.mk' 2026 7 15)

/-- C3: the worked numeric example — initial stats of the 49000-win
liquidation, then the merge of the -10000-loss liquidation, quantified over
every field the example leaves open. -/
theorem workedExample_stats
    (u p sy : String) (nm : Option String) (cp : Rat) (od cd : TimestampValue)
    (u' p' sy' : String) (nm' : Option String) (cp' : Rat) (od' cd' : TimestampValue) :
    (calculateInitialStats (workedInfo1 u p sy nm cp od cd)).totalTrades = 1 ∧
    (calculateInitialStats (workedInfo1 u p sy nm cp od cd)).winCount = 1 ∧
    (calculateInitialStats (workedInfo1 u p sy nm cp od cd)).loseCount = 0 ∧
    (calculateInitialStats (workedInfo1 u p sy nm cp od cd)).winRate = 100 ∧
    (calculateInitialStats (workedInfo1 u p sy nm cp od cd)).totalRealizedPL = 49000 ∧
    (calculateInitialStats (workedInfo1 u p sy nm cp od cd)).averagePL = 49000 ∧
    (calculateInitialStats (workedInfo1 u p sy nm cp od cd)).totalInvestment = 700000 ∧
    (calculateInitialStats (workedInfo1 u p sy nm cp od cd)).totalFee = 1000 ∧
    (calculateInitialStats (workedInfo1 u p sy nm cp od cd)).profitLossRatio = none ∧
    (calculateUpdatedStats (calculateInitialStats (workedInfo1 u p sy nm cp od cd))
      (workedInfo2 u' p' sy' nm' cp' od' cd')).totalTrades = 2 ∧
    (calculateUpdatedStats (calculateInitialStats (workedInfo1 u p sy nm cp od cd))
      (workedInfo2 u' p' sy' nm' cp' od' cd')).winCount = 1 ∧
    (calculateUpdatedStats (calculateInitialStats (workedInfo1 u p sy nm cp od cd))
      (workedInfo2 u' p' sy' nm' cp' od' cd')).loseCount = 1 ∧
    (calculateUpdatedStats (calculateInitialStats (workedInfo1 u p sy nm cp od cd))
      (workedInfo2 u' p' sy' nm' cp' od' cd')).winRate = 50 ∧
    (calculateUpdatedStats (calculateInitialStats (workedInfo1 u p sy nm cp od cd))
      (workedInfo2 u' p' sy' nm' cp' od' cd')).totalRealizedPL = 39000 ∧
    (calculateUpdatedStats (calculateInitialStats (workedInfo1 u p sy nm cp od cd))
      (workedInfo2 u' p' sy' nm' cp' od' cd')).totalFee = 1500 ∧
    (calculateUpdatedStats (calculateInitialStats (workedInfo1 u p sy nm cp od cd))
      (workedInfo2 u' p' sy' nm' cp' od' cd')).totalInvestment = 950000 ∧
    (calculateUpdatedStats (calculateInitialStats (workedInfo1 u p sy nm cp od cd))
      (workedInfo2 u' p' sy' nm' cp' od' cd')).totalLoss = 10000 ∧
    (calculateUpdatedStats (calculateInitialStats (workedInfo1 u p sy nm cp od cd))
      (workedInfo2 u' p' sy' nm' cp' od' cd')).totalProfit = 49000 ∧
    (calculateUpdatedStats (calculateInitialStats (workedInfo1 u p sy nm cp od cd))
      (workedInfo2 u' p' sy' nm' cp' od' cd')).profitLossRatio = some (49/10) := by
  norm_num [workedInfo1, workedInfo2, calculateInitialStats, calculateUpdatedStats]

/-- Witness for C3: the merged `profitLossRatio` of the worked example,
instantiated at the doc-example field values. -/
theorem workedExample_stats_witness :
    (calculateUpdatedStats
      (calculateInitialStats (workedInfo1 "user123" "pos456" "005930" none 75000
        exampleLiquidation1.openDate exampleLiquidation1.closeDate))
      (workedInfo2 "user123" "pos789" "005930" none 48000
        exampleLiquidation2.openDate exampleLiquidation2.closeDate)).profitLossRatio =
      some (49/10) :=
  (workedExample_stats "user123" "pos456" "005930" none 75000
    exampleLiquidation1.openDate exampleLiquidation1.closeDate
    "user123" "pos789" "005930" none 48000
    exampleLiquidation2.openDate exampleLiquidation2.closeDate).2.2.2.2.2.2.2.2.2.2.2.2.2.2.2.2.2.2

/-- C6: `calculateInitialStats` establishes the stats invariant and
`calculateUpdatedStats` preserves it. -/
theorem statsInvariant_holds :
    (∀ info, StatsInvariant (calculateInitialStats info)) ∧
    (∀ stats info, StatsInvariant stats →
      StatsInvariant (calculateUpdatedStats stats info)) := by
  constructor
  · intro info
    unfold StatsInvariant calculateInitialStats
    dsimp only
    split_ifs <;> norm_num
  · rintro stats info ⟨h1, _h2, h3⟩
    unfold StatsInvariant calculateUpdatedStats
    dsimp only
    refine ⟨?_, rfl, by linarith⟩
    split_ifs <;> linarith

/-- Witness for C6: the invariant holds concretely after merging the worked
example's second liquidation into the initial stats of the first. -/
theorem statsInvariant_holds_witness :
    StatsInvariant (calculateUpdatedStats (calculateInitialStats exampleLiquidation1)
      exampleLiquidation2) :=
  statsInvariant_holds.2 (calculateInitialStats exampleLiquidation1) exampleLiquidation2
    (statsInvariant_holds.1 exampleLiquidation1)

/-- C10: a liquidation with no `fee` contributes `0` to `totalFee` — the
initial record's fee total is `0` and a merge leaves the fee total
unchanged. -/
theorem missingFee_treated_as_zero :
    ∀ info : PositionLiquidationInfo, info.fee = none →
      (calculateInitialStats info).totalFee = 0 ∧
      ∀ stats, (calculateUpdatedStats stats info).totalFee = stats.totalFee := by
  intro info h
  refine ⟨?_, fun stats => ?_⟩ <;> simp [calculateInitialStats, calculateUpdatedStats, h]

/-- Witness for C10: the fee-less liquidation concretely yields a zero initial
fee total and leaves the worked example's fee total at 1000. -/
theorem missingFee_treated_as_zero_witness :
    (calculateInitialStats feelessLiquidation).totalFee = 0 ∧
    (calculateUpdatedStats (calculateInitialStats exampleLiquidation1)
      feelessLiquidation).totalFee =
      (calculateInitialStats exampleLiquidation1).totalFee :=
  ⟨(missingFee_treated_as_zero feelessLiquidation rfl).1,
   (missingFee_treated_as_zero feelessLiquidation rfl).2
     (calculateInitialStats exampleLiquidation1)⟩

/-! ## Structural lemmas about the period loop -/

section LoopLemmas

variable {σ : Type} (cfg : PerformanceManagerConfig σ)
variable (info : PositionLiquidationInfo) (closeDate : JSDate)

/-- The real loop of `processPositionLiquidation` computes exactly the
accumulation of the instrumented trace. -/
lemma processPeriods_eq_trace :
    ∀ (ps : List PerformancePeriod) (res : PerformanceProcessResult) (s : σ),
      ps.foldl (processPeriod cfg info closeDate) (res, s) =
        (accumTrace info closeDate res (runTrace cfg info closeDate ps s).1,
         (runTrace cfg info closeDate ps s).2) := by
  intro ps
  induction ps with
  | nil => intro res s; rfl
  | cons p ps ih =>
      intro res s
      rw [List.foldl_cons]
      cases h : periodCycle cfg info closeDate p s with
      | error e =>
          have hpp : processPeriod cfg info closeDate (res, s) p = (res, s) := by
            simp [processPeriod, h]
          rw [hpp, ih]
          simp [runTrace, h, accumTrace]
      | ok v =>
          obtain ⟨created, s1⟩ := v
          have hpp : processPeriod cfg info closeDate (res, s) p =
              (applyPeriodOutcome info closeDate res p created, s1) := by
            simp [processPeriod, h]
          rw [hpp, ih]
          simp [runTrace, h, accumTrace]

/-- Model of `applyPeriodOutcome` leaves the `success` flag alone. -/
lemma applyPeriodOutcome_success (res p created) :
    (applyPeriodOutcome info closeDate res p created).success = res.success := by
  cases created <;> simp [applyPeriodOutcome]

/-- Model of `applyPeriodOutcome` leaves the `error` field alone. -/
lemma applyPeriodOutcome_error (res p created) :
    (applyPeriodOutcome info closeDate res p created).error = res.error := by
  cases created <;> simp [applyPeriodOutcome]

/-- Model of `applyPeriodOutcome` appends the period to `updatedPeriods`. -/
lemma applyPeriodOutcome_updatedPeriods (res p created) :
    (applyPeriodOutcome info closeDate res p created).updatedPeriods =
      res.updatedPeriods ++ [p] := by
  cases created <;> simp [applyPeriodOutcome]

/-- Model of `applyPeriodOutcome` appends the tag to `createdRecords` iff the record
was created. -/
lemma applyPeriodOutcome_createdRecords (res p created) :
    (applyPeriodOutcome info closeDate res p created).createdRecords =
      res.createdRecords ++
        (if created then [periodName p ++ ":" ++ docIdFor info closeDate p] else []) := by
  cases created <;> simp [applyPeriodOutcome]

/-- Model of `applyPeriodOutcome` appends the tag to `updatedRecords` iff the record
was merged. -/
lemma applyPeriodOutcome_updatedRecords (res p created) :
    (applyPeriodOutcome info closeDate res p created).updatedRecords =
      res.updatedRecords ++
        (if created then [] else [periodName p ++ ":" ++ docIdFor info closeDate p]) := by
  cases created <;> simp [applyPeriodOutcome]

/-- Accumulating a trace never changes `success`. -/
lemma accumTrace_success :
    ∀ (t : List (PerformancePeriod × Option Bool)) (res : PerformanceProcessResult),
      (accumTrace info closeDate res t).success = res.success := by
  intro t
  induction t with
  | nil => intro res; rfl
  | cons x t ih =>
      intro res
      obtain ⟨p, o⟩ := x
      cases o with
      | none => exact ih res
      | some created =>
          have h : accumTrace info closeDate res ((p, some created) :: t) =
              accumTrace info closeDate (applyPeriodOutcome info closeDate res p created) t := rfl
          rw [h]
          exact (ih _).trans (applyPeriodOutcome_success info closeDate res p created)

/-- Accumulating a trace never changes `error`. -/
lemma accumTrace_error :
    ∀ (t : List (PerformancePeriod × Option Bool)) (res : PerformanceProcessResult),
      (accumTrace info closeDate res t).error = res.error := by
  intro t
  induction t with
  | nil => intro res; rfl
  | cons x t ih =>
      intro res
      obtain ⟨p, o⟩ := x
      cases o with
      | none => exact ih res
      | some created =>
          exact (ih _).trans (applyPeriodOutcome_error info closeDate res p created)

/-- Model of `updatedPeriods` after accumulation: the successful periods, in order. -/
lemma accumTrace_updatedPeriods :
    ∀ (t : List (PerformancePeriod × Option Bool)) (res : PerformanceProcessResult),
      (accumTrace info closeDate res t).updatedPeriods =
        res.updatedPeriods ++
          t.filterMap (fun x => if x.2.isSome then some x.1 else none) := by
  intro t
  induction t with
  | nil => intro res; simp [accumTrace]
  | cons x t ih =>
      intro res
      obtain ⟨p, o⟩ := x
      cases o with
      | none => simpa using ih res
      | some created =>
          have : accumTrace info closeDate res ((p, some created) :: t) =
              accumTrace info closeDate (applyPeriodOutcome info closeDate res p created) t := rfl
          rw [this, ih, applyPeriodOutcome_updatedPeriods]
          simp

/-- Model of `createdRecords` after accumulation: the tags of created periods. -/
lemma accumTrace_createdRecords :
    ∀ (t : List (PerformancePeriod × Option Bool)) (res : PerformanceProcessResult),
      (accumTrace info closeDate res t).createdRecords =
        res.createdRecords ++
          (t.filterMap (fun x => if x.2 == some true then some x.1 else none)).map
            (fun p => periodName p ++ ":" ++ docIdFor info closeDate p) := by
  intro t
  induction t with
  | nil => intro res; simp [accumTrace]
  | cons x t ih =>
      intro res
      obtain ⟨p, o⟩ := x
      cases o with
      | none => simpa using ih res
      | some created =>
          have : accumTrace info closeDate res ((p, some created) :: t) =
              accumTrace info closeDate (applyPeriodOutcome info closeDate res p created) t := rfl
          rw [this, ih, applyPeriodOutcome_createdRecords]
          cases created <;> simp

/-- Model of `updatedRecords` after accumulation: the tags of merged periods. -/
lemma accumTrace_updatedRecords :
    ∀ (t : List (PerformancePeriod × Option Bool)) (res : PerformanceProcessResult),
      (accumTrace info closeDate res t).updatedRecords =
        res.updatedRecords ++
          (t.filterMap (fun x => if x.2 == some false then some x.1 else none)).map
            (fun p => periodName p ++ ":" ++ docIdFor info closeDate p) := by
  intro t
  induction t with
  | nil => intro res; simp [accumTrace]
  | cons x t ih =>
      intro res
      obtain ⟨p, o⟩ := x
      cases o with
      | none => simpa using ih res
      | some created =>
          have : accumTrace info closeDate res ((p, some created) :: t) =
              accumTrace info closeDate (applyPeriodOutcome info closeDate res p created) t := rfl
          rw [this, ih, applyPeriodOutcome_updatedRecords]
          cases created <;> simp

/-- The trace visits exactly the requested periods, in order. -/
lemma runTrace_map_fst :
    ∀ (ps : List PerformancePeriod) (s : σ),
      ((runTrace cfg info closeDate ps s).1).map Prod.fst = ps := by
  intro ps
  induction ps with
  | nil => intro s; rfl
  | cons p ps ih =>
      intro s
      cases h : periodCycle cfg info closeDate p s with
      | error e => simp [runTrace, h, ih]
      | ok v =>
          obtain ⟨created, s1⟩ := v
          simp [runTrace, h, ih]

end LoopLemmas

/-- On a duplicate-free trace, selecting the periods whose outcome satisfies
`f` equals filtering the visited periods through `f` of their trace
outcome. -/
lemma filterMap_trace_eq_filter (f : Option Bool → Bool) :
    ∀ t : List (PerformancePeriod × Option Bool), (t.map Prod.fst).Nodup →
      t.filterMap (fun x => if f x.2 then some x.1 else none) =
        (t.map Prod.fst).filter (fun p => f (traceOutcome t p)) := by
  intro t
  induction t with
  | nil => intro _; rfl
  | cons x t ih =>
      intro hnd
      obtain ⟨p0, o0⟩ := x
      rw [List.map_cons] at hnd
      have hp0 : p0 ∉ t.map Prod.fst := (List.nodup_cons.mp hnd).1
      have hnd' : (t.map Prod.fst).Nodup := (List.nodup_cons.mp hnd).2
      have hhead : traceOutcome ((p0, o0) :: t) p0 = o0 := by
        simp [traceOutcome, List.find?_cons]
      have htail : ∀ p ∈ t.map Prod.fst,
          traceOutcome ((p0, o0) :: t) p = traceOutcome t p := by
        intro p hp
        have hne : p0 ≠ p := fun h => hp0 (h ▸ hp)
        simp [traceOutcome, List.find?_cons, hne]
      rw [List.filterMap_cons, List.map_cons, List.filter_cons]
      rw [List.filter_congr (fun p hp => by rw [htail p hp])]
      rw [hhead, ih hnd']
      cases hf : f o0 <;> simp

/-- The empty starting result object of `processPositionLiquidation`. -/
lemma process_empty_result {σ : Type} (info : PositionLiquidationInfo)
    (cfg : PerformanceManagerConfig σ) (s : σ) (e : String)
    (he : toCloseDate info.closeDate = Except.error e) :
    processPositionLiquidation info cfg s =
      ({ success := false, updatedPeriods := [], createdRecords := [],
         updatedRecords := [], error := some e }, s) := by
  simp [processPositionLiquidation, he]

/-- Characterization of the result of `processPositionLiquidation` when the
close timestamp parses: success, no error, and the three result lists are
determined by the per-period cycle outcomes. -/
lemma process_spec {σ : Type} (info : PositionLiquidationInfo)
    (cfg : PerformanceManagerConfig σ) (s : σ) (d : JSDate)
    (hd : toCloseDate info.closeDate = Except.ok d) :
    (processPositionLiquidation info cfg s).1.success = true ∧
    (processPositionLiquidation info cfg s).1.error = none ∧
    (processPositionLiquidation info cfg s).1.updatedPeriods =
      allPeriods.filter (fun p => (cycleOutcome cfg info s p).isSome) ∧
    (processPositionLiquidation info cfg s).1.createdRecords =
      (allPeriods.filter (fun p => cycleOutcome cfg info s p == some true)).map
        (fun p => periodName p ++ ":" ++ docIdFor info d p) ∧
    (processPositionLiquidation info cfg s).1.updatedRecords =
      (allPeriods.filter (fun p => cycleOutcome cfg info s p == some false)).map
        (fun p => periodName p ++ ":" ++ docIdFor info d p) := by
  have hproc : processPositionLiquidation info cfg s =
      allPeriods.foldl (processPeriod cfg info d)
        ({ success := true, updatedPeriods := [], createdRecords := [],
           updatedRecords := [], error := none }, s) := by
    simp [processPositionLiquidation, hd]
  have hnd : (((runTrace cfg info d allPeriods s).1).map Prod.fst).Nodup := by
    rw [runTrace_map_fst]; decide
  have hout : ∀ p, cycleOutcome cfg info s p =
      traceOutcome (runTrace cfg info d allPeriods s).1 p := by
    intro p; simp [cycleOutcome, hd]
  rw [hproc, processPeriods_eq_trace]
  refine ⟨accumTrace_success _ _ _ _, accumTrace_error _ _ _ _, ?_, ?_, ?_⟩
  · rw [accumTrace_updatedPeriods,
      filterMap_trace_eq_filter (fun o => o.isSome) _ hnd,
      runTrace_map_fst]
    simp only [hout, List.nil_append]
  · rw [accumTrace_createdRecords,
      filterMap_trace_eq_filter (fun o => o == some true) _ hnd,
      runTrace_map_fst]
    simp only [hout, List.nil_append]
  · rw [accumTrace_updatedRecords,
      filterMap_trace_eq_filter (fun o => o == some false) _ hnd,
      runTrace_map_fst]
    simp only [hout, List.nil_append]

/-- C9: the result of `processPositionLiquidation` is well-formed for every
input and every store behavior — `updatedPeriods` is duplicate-free, and
(whenever the close timestamp parses, which is the only case in which any
period is processed at all) it is exactly the list of periods whose cycle
completed without error, while `createdRecords` / `updatedRecords` list the
`{period}:{userId}_{periodKey}` tags of exactly the created (resp. merged)
periods — so the two lists name disjoint sets of periods and every entry has
the stated shape. -/
theorem processResult_wellformed {σ : Type} (info : PositionLiquidationInfo)
    (cfg : PerformanceManagerConfig σ) (s : σ) :
    (processPositionLiquidation info cfg s).1.updatedPeriods.Nodup ∧
    ∀ d : JSDate, toCloseDate info.closeDate = Except.ok d →
      ((processPositionLiquidation info cfg s).1.updatedPeriods =
        allPeriods.filter (fun p => (cycleOutcome cfg info s p).isSome) ∧
      (processPositionLiquidation info cfg s).1.createdRecords =
        (allPeriods.filter (fun p => cycleOutcome cfg info s p == some true)).map
          (fun p => periodName p ++ ":" ++ docIdFor info d p) ∧
      (processPositionLiquidation info cfg s).1.updatedRecords =
        (allPeriods.filter (fun p => cycleOutcome cfg info s p == some false)).map
          (fun p => periodName p ++ ":" ++ docIdFor info d p)) := by
  constructor
  · cases hd : toCloseDate info.closeDate with
    | error e => rw [process_empty_result info cfg s e hd]; exact List.nodup_nil
    | ok d =>
        rw [(process_spec info cfg s d hd).2.2.1]
        exact List.Nodup.filter _ (by decide)
  · intro d hd
    exact (process_spec info cfg s d hd).2.2

/-- C5: the caller always receives a result object; an error ahead of the
period loop (the unparseable close timestamp is the only fallible pre-loop
statement) is caught and surfaces as `success = false` with the thrown
message as the `error` string, the store state untouched (no rollback is
even possible — nothing was written); in every other case `success = true`.
Totality of `processPositionLiquidation` is the model of "never propagates
an exception". -/
theorem process_never_throws {σ : Type} (info : PositionLiquidationInfo)
    (cfg : PerformanceManagerConfig σ) (s : σ) :
    ((processPositionLiquidation info cfg s).1.success = false ↔
      ∃ e, toCloseDate info.closeDate = Except.error e) ∧
    ∀ e, toCloseDate info.closeDate = Except.error e →
      processPositionLiquidation info cfg s =
        ({ success := false, updatedPeriods := [], createdRecords := [],
           updatedRecords := [], error := some e }, s) := by
  refine ⟨?_, fun e he => process_empty_result info cfg s e he⟩
  cases hd : toCloseDate info.closeDate with
  | error e =>
      rw [process_empty_result info cfg s e hd]
      simp
  | ok d =>
      rw [(process_spec info cfg s d hd).1]
      simp

/-- Witness for C5: concretely, the worked-example liquidation with a
malformed close timestamp yields `success = false`, the throw's message as
`error`, all three lists empty, and an unchanged store. -/
theorem process_never_throws_witness :
    processPositionLiquidation invalidCloseInfo
        (listStoreConfig (JSDate.mk' 2025 1 2)) ([] : Store) =
      ({ success := false, updatedPeriods := [], createdRecords := [],
         updatedRecords := [],
         error := some "Cannot read properties of null - reading seconds" },
       ([] : Store)) :=
  (process_never_throws invalidCloseInfo (listStoreConfig (JSDate.mk' 2025 1 2))
    ([] : Store)).2 _ rfl

/-- C4: if in a run exactly one period's read-modify-write cycle raises an
error, the four other periods are still attempted and completed: the result
reports them (and only them) in `updatedPeriods`, tags exactly the
created/merged ones in `createdRecords`/`updatedRecords` (the failed period
appears in neither, as its outcome satisfies neither filter), and the overall
call still returns `success = true`. -/
theorem one_period_failure_is_isolated {σ : Type} (info : PositionLiquidationInfo)
    (cfg : PerformanceManagerConfig σ) (s : σ) (d : JSDate)
    (p0 : PerformancePeriod)
    (hd : toCloseDate info.closeDate = Except.ok d)
    (herr : cycleOutcome cfg info s p0 = none)
    (hok : ∀ p, p ≠ p0 → (cycleOutcome cfg info s p).isSome) :
    (processPositionLiquidation info cfg s).1.success = true ∧
    (processPositionLiquidation info cfg s).1.updatedPeriods =
      allPeriods.filter (fun p => p != p0) ∧
    (processPositionLiquidation info cfg s).1.createdRecords =
      (allPeriods.filter (fun p => cycleOutcome cfg info s p == some true)).map
        (fun p => periodName p ++ ":" ++ docIdFor info d p) ∧
    (processPositionLiquidation info cfg s).1.updatedRecords =
      (allPeriods.filter (fun p => cycleOutcome cfg info s p == some false)).map
        (fun p => periodName p ++ ":" ++ docIdFor info d p) ∧
    ∀ p : PerformancePeriod, (cycleOutcome cfg info s p).isSome = (p != p0) := by
  have hiff : ∀ p : PerformancePeriod, (cycleOutcome cfg info s p).isSome = (p != p0) := by
    intro p
    by_cases hp : p = p0
    · subst hp; simp [herr]
    · simp [hok p hp, bne_iff_ne, hp]
  refine ⟨(process_spec info cfg s d hd).1, ?_,
    (process_spec info cfg s d hd).2.2.2.1, (process_spec info cfg s d hd).2.2.2.2, hiff⟩
  rw [(process_spec info cfg s d hd).2.2.1]
  exact List.filter_congr (fun p _ => hiff p)

/-- Witness for C9: the well-formedness conclusions instantiated on the
worked-example liquidation run against the empty honest store. -/
theorem processResult_wellformed_witness :
    (processPositionLiquidation exampleLiquidation1
        (listStoreConfig (JSDate.mk' 2025 1 2)) ([] : Store)).1.updatedPeriods =
      allPeriods.filter (fun p =>
        (cycleOutcome (listStoreConfig (JSDate.mk' 2025 1 2)) exampleLiquidation1
          ([] : Store) p).isSome) ∧
    (processPositionLiquidation exampleLiquidation1
        (listStoreConfig (JSDate.mk' 2025 1 2)) ([] : Store)).1.createdRecords =
      (allPeriods.filter (fun p =>
        cycleOutcome (listStoreConfig (JSDate.mk' 2025 1 2)) exampleLiquidation1
          ([] : Store) p == some true)).map
        (fun p => periodName p ++ ":" ++ docIdFor exampleLiquidation1 (JSDate.mk' 2025 1 1) p) ∧
    (processPositionLiquidation exampleLiquidation1
        (listStoreConfig (JSDate.mk' 2025 1 2)) ([] : Store)).1.updatedRecords =
      (allPeriods.filter (fun p =>
        cycleOutcome (listStoreConfig (JSDate.mk' 2025 1 2)) exampleLiquidation1
          ([] : Store) p == some false)).map
        (fun p => periodName p ++ ":" ++ docIdFor exampleLiquidation1 (JSDate.mk' 2025 1 1) p) :=
  (processResult_wellformed exampleLiquidation1
      (listStoreConfig (JSDate.mk' 2025 1 2)) ([] : Store)).2
    (JSDate.mk' 2025 1 1) rfl

/-- Witness for C4: against the store that fails exactly on
`weekly_performance` writes, the worked-example run succeeds with the four
other periods reported and weekly omitted. -/
theorem one_period_failure_is_isolated_witness :
    (processPositionLiquidation exampleLiquidation1
        (weeklyFailingConfig (JSDate.mk' 2025 1 2)) ([] : Store)).1.success = true ∧
    (processPositionLiquidation exampleLiquidation1
        (weeklyFailingConfig (JSDate.mk' 2025 1 2)) ([] : Store)).1.updatedPeriods =
      allPeriods.filter (fun p => p != PerformancePeriod.weekly) ∧
    (processPositionLiquidation exampleLiquidation1
        (weeklyFailingConfig (JSDate.mk' 2025 1 2)) ([] : Store)).1.createdRecords =
      (allPeriods.filter (fun p =>
        cycleOutcome (weeklyFailingConfig (JSDate.mk' 2025 1 2)) exampleLiquidation1
          ([] : Store) p == some true)).map
        (fun p => periodName p ++ ":" ++ docIdFor exampleLiquidation1 (JSDate.mk' 2025 1 1) p) ∧
    (processPositionLiquidation exampleLiquidation1
        (weeklyFailingConfig (JSDate.mk' 2025 1 2)) ([] : Store)).1.updatedRecords =
      (allPeriods.filter (fun p =>
        cycleOutcome (weeklyFailingConfig (JSDate.mk' 2025 1 2)) exampleLiquidation1
          ([] : Store) p == some false)).map
        (fun p => periodName p ++ ":" ++ docIdFor exampleLiquidation1 (JSDate.mk' 2025 1 1) p) ∧
    ∀ p : PerformancePeriod,
      (cycleOutcome (weeklyFailingConfig (JSDate.mk' 2025 1 2)) exampleLiquidation1
        ([] : Store) p).isSome = (p != PerformancePeriod.weekly) :=
  one_period_failure_is_isolated exampleLiquidation1
    (weeklyFailingConfig (JSDate.mk' 2025 1 2)) ([] : Store)
    (JSDate.mk' 2025 1 1) PerformancePeriod.weekly rfl (by decide) (by decide)

open PerformancePeriod in
/-- C7: processing the identical liquidation twice against an initially empty
honest store (the second call reading the first call's writes) leaves, in
every one of the five period records, `liquidatedPositionIds` containing the
same position id twice and `stats.totalTrades = 2` — the merge appends to the
audit list without deduplicating by position id. -/
theorem reprocessing_doubles (info : PositionLiquidationInfo) (d now1 now2 : JSDate)
    (hd : toCloseDate info.closeDate = Except.ok d) (p : PerformancePeriod) :
    ∃ r : PerformanceRecord,
      storeFind
        (processPositionLiquidation info (listStoreConfig now2)
          (processPositionLiquidation info (listStoreConfig now1) ([] : Store)).2).2
        (collectionNames {} p) (docIdFor info d p) = some r ∧
      r.stats.totalTrades = 2 ∧
      r.liquidatedPositionIds = [info.positionId, info.positionId] := by
  have h1 : (processPositionLiquidation info (listStoreConfig now1) ([] : Store)).2 =
      [("overall_performance", docIdFor info d overall,
        PerformanceRecord.mk info.userId overall (periodKeys d overall) none none
          (calculateInitialStats info) [info.positionId] now1 now1),
       ("yearly_performance", docIdFor info d yearly,
        PerformanceRecord.mk info.userId yearly (periodKeys d yearly)
          (some (getPeriodStartDate d yearly)) (some (getPeriodEndDate d yearly))
          (calculateInitialStats info) [info.positionId] now1 now1),
       ("monthly_performance", docIdFor info d monthly,
        PerformanceRecord.mk info.userId monthly (periodKeys d monthly)
          (some (getPeriodStartDate d monthly)) (some (getPeriodEndDate d monthly))
          (calculateInitialStats info) [info.positionId] now1 now1),
       ("weekly_performance", docIdFor info d weekly,
        PerformanceRecord.mk info.userId weekly (periodKeys d weekly)
          (some (getPeriodStartDate d weekly)) (some (getPeriodEndDate d weekly))
          (calculateInitialStats info) [info.positionId] now1 now1),
       ("daily_performance", docIdFor info d daily,
        PerformanceRecord.mk info.userId daily (periodKeys d daily)
          (some (getPeriodStartDate d daily)) (some (getPeriodEndDate d daily))
          (calculateInitialStats info) [info.positionId] now1 now1)] := by
    simp [processPositionLiquidation, hd, allPeriods, processPeriod, periodCycle,
      listStoreConfig, listStoreCrud, collectionNames, storeFind, List.find?]
  rw [h1]
  cases p <;>
    simp [processPositionLiquidation, hd, allPeriods, processPeriod, periodCycle,
      listStoreConfig, listStoreCrud, collectionNames, storeFind, List.find?,
      applyRecordUpdate, calculateUpdatedStats, calculateInitialStats] <;>
    norm_num

/-- Witness for C7: the double-processing conclusion instantiated on the
worked-example liquidation and the daily record. -/
theorem reprocessing_doubles_witness :
    ∃ r : PerformanceRecord,
      storeFind
        (processPositionLiquidation exampleLiquidation1
          (listStoreConfig (JSDate.mk' 2025 1 3))
          (processPositionLiquidation exampleLiquidation1
            (listStoreConfig (JSDate.mk' 2025 1 2)) ([] : Store)).2).2
        (collectionNames {} PerformancePeriod.daily)
        (docIdFor exampleLiquidation1 (JSDate.mk' 2025 1 1) PerformancePeriod.daily) = some r ∧
      r.stats.totalTrades = 2 ∧
      r.liquidatedPositionIds =
        [exampleLiquidation1.positionId, exampleLiquidation1.positionId] :=
  reprocessing_doubles exampleLiquidation1 (JSDate.mk' 2025 1 1)
    (JSDate.mk' 2025 1 2) (JSDate.mk' 2025 1 3) rfl PerformancePeriod.daily

end SwTrading
